import Mathlib

/-!
Verification of the rtmp-server recording pipeline specification against the
repository sources. Pure functions from `server.js` are embedded directly;
components whose implementation lives outside the provided sources
(`scripts/upload_to_spaces.py`) are modelled from the specification text, as
marked on each definition.
-/

namespace RtmpServer

/-! ## Stream-key validation (`server.js`, `isValidStreamKey`)

`const validKeys = process.env.VALID_STREAM_KEYS?.split(comma) || [];`
`return validKeys.includes(streamKey) || validKeys.length === 0;`

The environment variable is an `Option String` (`none` = unset). In
JavaScript, `undefined?.split(comma)` is `undefined`, and `undefined || []`
yields `[]`; a set variable (even the empty string) is split on commas, and
`String.prototype.split` always returns a non-empty array, which is truthy,
so `|| []` does not fire. The Lean `String.splitOn` agrees with JavaScript
`split` here: both map `""` to `[""]`.
-/

def validKeysOf (env : Option String) : List String :=
  match env with
  | none => []
  | some s => s.splitOn ","

def isValidStreamKey (env : Option String) (streamKey : String) : Bool :=
  let validKeys := validKeysOf env
  validKeys.contains streamKey || validKeys.length == 0

/-- The `prePublish` handler of `server.js`: the session is rejected exactly
when `ENABLE_AUTH` is true, `STREAM_KEY_VALIDATION` is the string true, and
`isValidStreamKey` returns false. -/
def prePublishRejects (enableAuth streamKeyValidation : Bool)
    (env : Option String) (streamKey : String) : Bool :=
  enableAuth && streamKeyValidation && !(isValidStreamKey env streamKey)

/-! ## Backoffice notification (`server.js`, `notifyStreamStatus`)

The function performs a single `fetch` inside a `try`/`catch`; an `ok`
response logs success, a non-`ok` response logs a warning, and any thrown
error (network failure) is caught and logged. No retry loop exists. We model
the possible outcomes of the one `fetch` call and the `try`/`catch`
explicitly: `notifyStreamStatusBody` is the `try` block, whose `.error`
branch is the exception that would escape, and `notifyStreamStatus` wraps it
in the `catch`, which converts every exception into a log line. -/

inductive FetchResult
  | ok
  | httpError (status : Nat)
  | networkError (msg : String)
deriving DecidableEq, Repr

/-- The body of the `try` block: the `fetch` call and the `response.ok`
check. A network error is a thrown exception (`.error`). -/
def notifyStreamStatusBody (streamKey status : String)
    (result : FetchResult) : Except String String :=
  match result with
  | .ok =>
      .ok ("Notified Laravel: " ++ streamKey ++ " -> " ++ status)
  | .httpError code =>
      .ok ("Failed to notify Laravel: " ++ toString code)
  | .networkError msg => .error msg

/-- `notifyStreamStatus` with its `catch` clause: every exception from the
body is converted into a logged message; nothing propagates to the caller.
The second component counts the `fetch` calls made (the source contains
exactly one, with no retry). -/
def notifyStreamStatus (streamKey status : String)
    (result : FetchResult) : Except String String × Nat :=
  let body := notifyStreamStatusBody streamKey status result
  (match body with
   | .ok msg => .ok msg
   | .error msg => .ok ("Laravel notification error: " ++ msg), 1)

/-- The `donePublish` handler: it calls `notifyStreamStatus` (fire and
forget) and then emits the `streamEnded` event to web clients. The Bool
records that the socket emission happens unconditionally. -/
def donePublishHandler (streamKey : String) (result : FetchResult) :
    (Except String String × Nat) × Bool :=
  (notifyStreamStatus streamKey "ended" result, true)

/-- The `postPublish` handler, identically structured. -/
def postPublishHandler (streamKey : String) (result : FetchResult) :
    (Except String String × Nat) × Bool :=
  (notifyStreamStatus streamKey "live" result, true)

/-! ## Recording pipeline data model

The Recording Ingestion Pipeline is implemented by
`scripts/upload_to_spaces.py`, which the provided sources only document
(README, setup guides). Its state machine, ledger and detector are modelled
from the specification text, as marked on each definition below. -/

/-- Recording states, from the data model of the specification (§3). -/
inductive RecState
  | Detected | Stabilizing | Uploading | Uploaded
  | PersistingMetadata | Notifying | Done | Failed | DeadLetter
deriving DecidableEq, Repr

/-- Modelled from the spec: the deterministic destination key of the Upload
Worker Pool (`scripts/upload_to_spaces.py` is not under the provided
sources); §4.3 and the README both give the key layout
`dvr/<stream_app>/<stream_name>/<filename>`. -/
def remote_key (stream_app stream_name filename : String) : String :=
  "dvr/" ++ stream_app ++ "/" ++ stream_name ++ "/" ++ filename

/-- The Recording record of §3 (fields the upload path consumes). -/
structure Recording where
  local_path : String
  stream_app : String
  stream_name : String
  filename : String
  size_bytes : Nat
  state : RecState
deriving DecidableEq, Repr

/-- The key under which the file of a Recording is uploaded. -/
def uploadKey (r : Recording) : String :=
  remote_key r.stream_app r.stream_name r.filename

/-! ## Idempotency Ledger (§4.4), modelled from the spec -/

/-- A ledger entry: the recorded state and whether the write has been
flushed to durable storage. -/
structure LedgerEntry where
  state : RecState
  durable : Bool
deriving DecidableEq, Repr

/-- The ledger: a durable mapping from `local_path` to its entry. -/
def Ledger := List (String × LedgerEntry)

def lookupLedger (p : String) (led : Ledger) : Option LedgerEntry :=
  match led with
  | [] => none
  | (q, e) :: rest => if q = p then some e else lookupLedger p rest

/-- Modelled from the spec: writing `Uploaded` to the ledger and flushing it
(`scripts/upload_to_spaces.py` is not under the provided sources; §4.4
requires the write to be durable before the pipeline proceeds). -/
def markUploadedDurable (led : Ledger) (p : String) : Ledger :=
  (p, ⟨.Uploaded, true⟩) :: led

/-- The pipeline may move a Recording to `PersistingMetadata` only once the
ledger holds a durable `Uploaded` entry for it. -/
def canProceedToPersist (led : Ledger) (p : String) : Bool :=
  match lookupLedger p led with
  | some e => decide (e.state = RecState.Uploaded) && e.durable
  | none => false

/-- Modelled from the spec: the coordinator step out of `Uploaded` — first
the ledger write is made durable, then, and only under a durable `Uploaded`
entry, the Recording transitions to `PersistingMetadata` (§4.4). -/
def stepFromUploaded (led : Ledger) (p : String) : RecState × Ledger :=
  let led2 := markUploadedDurable led p
  if canProceedToPersist led2 p then (.PersistingMetadata, led2)
  else (.Uploaded, led2)

/-- What startup reconciliation decides for one file found on disk. -/
inductive StartupAction
  | Skip
  | Reenqueue (phase : RecState)
deriving DecidableEq, Repr

/-- Modelled from the spec: startup reconciliation of the ledger against the
filesystem (§4.4): `Uploaded`/`Done` entries are skipped; `Uploading`/
`Stabilizing` entries are re-validated for stability and re-enqueued; files
with no entry (or other states) are enqueued from the start. -/
def reconcileEntry (e : Option LedgerEntry) : StartupAction :=
  match e with
  | some ⟨.Uploaded, _⟩ => .Skip
  | some ⟨.Done, _⟩ => .Skip
  | some ⟨.Uploading, _⟩ => .Reenqueue .Stabilizing
  | some ⟨.Stabilizing, _⟩ => .Reenqueue .Stabilizing
  | _ => .Reenqueue .Detected

/-! ## Stability Detector (§4.1), modelled from the spec

A polling scan observes the `(size, mtime)` of the file once per scan tick; a
file is declared `Stabilized` once it has gone `window` consecutive ticks
with no change since first being observed at its final value, and the event
is emitted at most once per stabilization episode. -/

structure FileObs where
  size : Nat
  mtime : Nat
deriving DecidableEq, Repr

structure DetState where
  last : Option FileObs
  stableFor : Nat
  emitted : Bool
deriving DecidableEq, Repr

/-- The detector state before any observation of the file. -/
def detInit : DetState := ⟨none, 0, false⟩

/-- Modelled from the spec: one scan tick of the Stability Detector
(`scripts/upload_to_spaces.py` is not under the provided sources; §4.1).
Returns the new state and whether `Stabilized` is emitted at this tick. An
unchanged observation increments the quiet counter and emits exactly when
the counter reaches the window for the first time; a changed observation
resets the counter and the emission flag (a new stabilization episode). -/
def detStep (window : Nat) (s : DetState) (obs : FileObs) : DetState × Bool :=
  match s.last with
  | none => (⟨some obs, 0, false⟩, false)
  | some prev =>
    if prev = obs then
      let n := s.stableFor + 1
      if window ≤ n ∧ s.emitted = false then (⟨some obs, n, true⟩, true)
      else (⟨some obs, n, s.emitted⟩, false)
    else (⟨some obs, 0, false⟩, false)

/-- Run the detector over a trace of observations, counting the
`Stabilized` emissions. -/
def detRunCount (window : Nat) (s : DetState) : List FileObs → Nat
  | [] => 0
  | obs :: rest =>
    let (s2, fired) := detStep window s obs
    (if fired then 1 else 0) + detRunCount window s2 rest

/-- The detector state after a trace of observations. -/
def detRunState (window : Nat) (s : DetState) : List FileObs → DetState
  | [] => s
  | obs :: rest => detRunState window (detStep window s obs).1 rest

/-! ## Notifier retry loop (§4.6), modelled from the spec -/

/-- Modelled from the spec: the bounded retry loop of the Notifier
(`scripts/upload_to_spaces.py` is not under the provided sources; §4.6).
`respond i` tells whether the i-th call (0-based) gets a 2xx response.
Returns `(calls made so far, succeeded)`. -/
def notifyAttempts (budget made : Nat) (respond : Nat → Bool) : Nat × Bool :=
  match budget with
  | 0 => (made, false)
  | b + 1 =>
    if respond made then (made + 1, true)
    else notifyAttempts b (made + 1) respond

/-- The Notifier phase: up to `maxAttempts` webhook calls. -/
def notifyLoop (maxAttempts : Nat) (respond : Nat → Bool) : Nat × Bool :=
  notifyAttempts maxAttempts 0 respond

/-- Modelled from the spec: after the notify phase the Recording is marked
`Done` regardless of the outcome; a failed notification is recorded as a
flag (the second component), never promoted to `DeadLetter` (§4.6, §7). -/
def finishNotify (result : Nat × Bool) : RecState × Bool :=
  (.Done, !result.2)

/-! ## Pipeline Coordinator submit (§4.2), modelled from the spec -/

/-- The in-memory view of the coordinator: the Recording tracked for each
`local_path`, plus counters of side effects performed (uploads started and
metadata records written), so that idempotence of `submit` is observable. -/
structure Coord where
  recs : List (String × RecState)
  uploadsStarted : Nat
  persistsDone : Nat
deriving DecidableEq, Repr

def lookupRec (p : String) (rs : List (String × RecState)) :
    Option RecState :=
  match rs with
  | [] => none
  | (q, st) :: rest => if q = p then some st else lookupRec p rest

/-- Modelled from the spec: `submit(recording)` of the Pipeline Coordinator
(`scripts/upload_to_spaces.py` is not under the provided sources; §4.2):
submitting a `local_path` that is already tracked — in-flight or terminal —
is a no-op; an unknown path is enqueued as `Detected`. -/
def submit (c : Coord) (p : String) : Coord :=
  match lookupRec p c.recs with
  | some _ => c
  | none => { c with recs := (p, .Detected) :: c.recs }

/-! ## Metadata backends (`dvr_recordings` schemas)

The provided sources give the backend schemas directly: the MySQL /
PostgreSQL DDL and the MongoDB document structure (database schema file),
and the Laravel migration (`LARAVEL_INTEGRATION.md`). We embed each
column list of each backend, and the MySQL table with its constraints. -/

/-- Columns of the MySQL `dvr_recordings` table (database schema file,
MySQL DDL). -/
def mysqlColumns : List String :=
  ["id", "filename", "file_url", "file_size", "upload_time",
   "stream_app", "stream_name", "timestamp", "created_at"]

/-- Columns of the PostgreSQL `dvr_recordings` table (same file, PostgreSQL
DDL). -/
def postgresColumns : List String :=
  ["id", "filename", "file_url", "file_size", "upload_time",
   "stream_app", "stream_name", "timestamp", "created_at"]

/-- Fields of the MongoDB `dvr_recordings` document (same file, document
structure comment). -/
def mongoFields : List String :=
  ["filename", "file_url", "file_size", "upload_time",
   "stream_app", "stream_name", "timestamp", "created_at"]

/-- Columns of the Laravel `dvr_recordings` migration
(`LARAVEL_INTEGRATION.md`): `$table->id()`, the string/bigInteger columns,
nullable `bucket` and `region`, and `timestamps()` =
`created_at`/`updated_at`. -/
def laravelColumns : List String :=
  ["id", "filename", "file_url", "file_size", "upload_time",
   "stream_app", "stream_name", "timestamp", "bucket", "region",
   "created_at", "updated_at"]

/-- The normalized fields produced for every persisted recording, common to
all backend schemas in the sources. -/
def coreFields : List String :=
  ["filename", "file_url", "file_size", "upload_time",
   "stream_app", "stream_name", "timestamp", "created_at"]

/-- A row of the MySQL `dvr_recordings` table (the columns of the DDL). -/
structure DvrRow where
  id : Nat
  filename : String
  file_url : String
  file_size : Int
  upload_time : String
  stream_app : String
  stream_name : String
  timestamp : String
  created_at : String
deriving DecidableEq, Repr

/-- The table state: rows plus the `AUTO_INCREMENT` counter. The DDL
declares `id` as the only key (`PRIMARY KEY`); `idx_stream_name`,
`idx_upload_time` and `idx_timestamp` are plain non-unique `INDEX`es, so no
uniqueness constraint exists on any other column. -/
structure DvrTable where
  rows : List DvrRow
  autoInc : Nat
deriving DecidableEq, Repr

/-- The column values of one record to be persisted (everything but the
auto-assigned `id`). -/
structure DvrValues where
  filename : String
  file_url : String
  file_size : Int
  upload_time : String
  stream_app : String
  stream_name : String
  timestamp : String
  created_at : String
deriving DecidableEq, Repr

/-- An `INSERT` into `dvr_recordings`: the row is appended with the next
auto-increment `id`. This is the persist operation the sources document —
the Laravel handler calls `DvrRecording::create` (a plain insert) and the
database guide grants only `INSERT, SELECT`; no `ON DUPLICATE KEY` /
`UPDATE` path exists, and the schema has no unique key to make one
possible. -/
def insertRow (t : DvrTable) (v : DvrValues) : DvrTable :=
  { rows := t.rows ++ [⟨t.autoInc, v.filename, v.file_url, v.file_size,
      v.upload_time, v.stream_app, v.stream_name, v.timestamp,
      v.created_at⟩],
    autoInc := t.autoInc + 1 }

/-- The Metadata Sink persist operation over the MySQL backend: a plain
insert of the values of the recording. -/
def persist (t : DvrTable) (v : DvrValues) : DvrTable :=
  insertRow t v

/-- Number of rows matching the natural key `(stream_name, filename)`. -/
def countByNaturalKey (t : DvrTable) (sn fn : String) : Nat :=
  (t.rows.filter (fun r => r.stream_name = sn && r.filename = fn)).length

/-! ## Webhook payload (`LARAVEL_INTEGRATION.md`, Webhook data format) -/

/-- A JSON value as used in the webhook body (strings, integers, null). -/
inductive JVal
  | s (v : String)
  | i (v : Int)
  | null
deriving DecidableEq, Repr

/-- The values carried by the webhook POST for one recording. `bucket` and
`region` are nullable. -/
structure WebhookPayload where
  filename : String
  file_url : String
  file_size : Int
  upload_time : String
  stream_app : String
  stream_name : String
  timestamp : String
  bucket : Option String
  region : Option String
deriving DecidableEq, Repr

def optJson (o : Option String) : JVal :=
  match o with
  | some v => .s v
  | none => .null

/-- Modelled from the spec: the JSON body POSTed to the webhook endpoint
(the sender `scripts/upload_to_spaces.py` is not under the provided
sources; the field-by-field format is documented in
`LARAVEL_INTEGRATION.md` and §6 of the specification). -/
def webhookBody (p : WebhookPayload) : List (String × JVal) :=
  [("filename", .s p.filename),
   ("file_url", .s p.file_url),
   ("file_size", .i p.file_size),
   ("upload_time", .s p.upload_time),
   ("stream_app", .s p.stream_app),
   ("stream_name", .s p.stream_name),
   ("timestamp", .s p.timestamp),
   ("bucket", optJson p.bucket),
   ("region", optJson p.region)]

/-- Modelled from the spec: the headers of the webhook POST
(`LARAVEL_INTEGRATION.md`, Headers section). -/
def webhookHeaders (secret : String) : List (String × String) :=
  [("Content-Type", "application/json"),
   ("X-Webhook-Secret", secret),
   ("User-Agent", "DVR-Uploader/1.0")]

def lookupHeader (name : String) (hs : List (String × String)) :
    Option String :=
  match hs with
  | [] => none
  | (n, v) :: rest => if n = name then some v else lookupHeader name rest

/-! ## Theorems -/

/-- C1: the remote key of a Recording is a pure deterministic function of
`(stream_app, stream_name, filename)` — any two Recordings agreeing on that
triple (regardless of path, size or in-memory state) get the same key — and
it equals `dvr/<stream_app>/<stream_name>/<filename>`, so it is re-derivable
from those three fields alone after a crash. -/
theorem remoteKeyDeterministic (r₁ r₂ : Recording)
    (ha : r₁.stream_app = r₂.stream_app)
    (hn : r₁.stream_name = r₂.stream_name)
    (hf : r₁.filename = r₂.filename) :
    uploadKey r₁ = uploadKey r₂ ∧
    uploadKey r₁ =
      "dvr/" ++ r₁.stream_app ++ "/" ++ r₁.stream_name ++ "/" ++
        r₁.filename := by
  refine ⟨?_, rfl⟩
  simp [uploadKey, remote_key, ha, hn, hf]

/-- Witness for C1 at two concrete Recordings that differ in `local_path`,
`size_bytes` and `state` but share the key triple. -/
theorem remoteKeyDeterministic_witness :
    uploadKey ⟨"/recordings/live/mystream/rec1.flv", "live", "mystream",
        "rec1.flv", 52428800, .Uploading⟩ =
      uploadKey ⟨"/elsewhere/rec1.flv", "live", "mystream",
        "rec1.flv", 0, .Done⟩ ∧
    uploadKey ⟨"/recordings/live/mystream/rec1.flv", "live", "mystream",
        "rec1.flv", 52428800, .Uploading⟩ =
      "dvr/" ++ "live" ++ "/" ++ "mystream" ++ "/" ++ "rec1.flv" :=
  remoteKeyDeterministic
    ⟨"/recordings/live/mystream/rec1.flv", "live", "mystream",
      "rec1.flv", 52428800, .Uploading⟩
    ⟨"/elsewhere/rec1.flv", "live", "mystream", "rec1.flv", 0, .Done⟩
    rfl rfl rfl

/-- C2: the coordinator step out of `Uploaded` transitions to
`PersistingMetadata` only after the ledger durably records `Uploaded` for
the path (the flushed entry is visible in the resulting ledger); the
transition guard requires a durable `Uploaded` entry; and startup
reconciliation skips `Uploaded`/`Done` entries (no re-upload — the key is
re-derived deterministically, cf. C1) while `Uploading`/`Stabilizing`
entries are re-enqueued from the stability-validation phase. -/
theorem ledgerCrashConsistency (led : Ledger) (p : String) (d : Bool) :
    ((stepFromUploaded led p).1 = RecState.PersistingMetadata ∧
      lookupLedger p (stepFromUploaded led p).2 =
        some ⟨RecState.Uploaded, true⟩) ∧
    (canProceedToPersist led p = true ↔
      lookupLedger p led = some ⟨RecState.Uploaded, true⟩) ∧
    reconcileEntry (some ⟨RecState.Uploaded, d⟩) = .Skip ∧
    reconcileEntry (some ⟨RecState.Done, d⟩) = .Skip ∧
    reconcileEntry (some ⟨RecState.Uploading, d⟩) =
      .Reenqueue .Stabilizing ∧
    reconcileEntry (some ⟨RecState.Stabilizing, d⟩) =
      .Reenqueue .Stabilizing := by
  refine ⟨⟨?_, ?_⟩, ?_, ?_, ?_, ?_, ?_⟩
  · simp [stepFromUploaded, canProceedToPersist, markUploadedDurable,
      lookupLedger]
  · simp [stepFromUploaded, canProceedToPersist, markUploadedDurable,
      lookupLedger]
  · constructor
    · intro h
      unfold canProceedToPersist at h
      cases he : lookupLedger p led with
      | none => rw [he] at h; exact absurd h (by simp)
      | some e =>
        rw [he] at h
        simp only [Bool.and_eq_true, decide_eq_true_eq] at h
        cases e
        simp_all
    · intro h
      unfold canProceedToPersist
      rw [h]
      simp
  · rfl
  · rfl
  · rfl
  · cases d <;> rfl

/-- An unchanged observation after the event was already emitted for this
episode: the quiet counter advances and nothing fires. -/
theorem detStepAfterEmit (window c : Nat) (obs : FileObs) :
    detStep window ⟨some obs, c, true⟩ obs =
      (⟨some obs, c + 1, true⟩, false) := by
  unfold detStep
  simp

/-- An unchanged observation in an un-emitted episode: the quiet counter
advances, and the event fires exactly when it reaches the window. -/
theorem detStepQuiet (window c : Nat) (obs : FileObs) :
    detStep window ⟨some obs, c, false⟩ obs =
      if window ≤ c + 1 then (⟨some obs, c + 1, true⟩, true)
      else (⟨some obs, c + 1, false⟩, false) := by
  unfold detStep
  by_cases hw : window ≤ c + 1 <;> simp [hw]

/-- Absorption: once the `Stabilized` event has been emitted for the
current stabilization episode, further unchanged observations emit
nothing. -/
theorem detQuietAfterEmit (window : Nat) (obs : FileObs) :
    ∀ (n c : Nat),
      detRunCount window ⟨some obs, c, true⟩ (List.replicate n obs) = 0 := by
  intro n
  induction n with
  | zero => intro c; simp [detRunCount]
  | succ m ih =>
    intro c
    rw [List.replicate_succ]
    simp only [detRunCount, detStepAfterEmit]
    simp [ih]

/-- Counting emissions over a quiet run: from an un-emitted state that has
already been quiet for `c < window` ticks, a further `n` unchanged
observations emit exactly once if they push the quiet count to the window,
and never otherwise. -/
theorem detQuietRun (window : Nat) :
    ∀ (n c : Nat) (obs : FileObs), c < window →
      detRunCount window ⟨some obs, c, false⟩ (List.replicate n obs) =
        if window ≤ c + n then 1 else 0 := by
  intro n
  induction n with
  | zero =>
    intro c obs hc
    simp only [List.replicate, detRunCount]
    rw [if_neg (by omega)]
  | succ m ih =>
    intro c obs hc
    rw [List.replicate_succ]
    simp only [detRunCount, detStepQuiet]
    by_cases hw : window ≤ c + 1
    · rw [if_pos hw]
      simp only [detQuietAfterEmit]
      rw [if_pos (by omega : window ≤ c + (m + 1))]
      simp
    · rw [if_neg hw]
      simp only
      rw [ih (c + 1) obs (by omega)]
      by_cases h2 : window ≤ c + (m + 1)
      · rw [if_pos (by omega : window ≤ c + 1 + m), if_pos h2]
        simp
      · rw [if_neg (by omega : ¬ window ≤ c + 1 + m), if_neg h2]
        simp

/-- C3: a file whose observations change (or that is seen for the first
time) never triggers `Stabilized` at that tick; and once the file stops
changing — every subsequent scan sees the same `(size, mtime)` — the
detector emits exactly one `Stabilized` event when the observation has been
unchanged for the full window, and none at all on shorter quiet runs, with
no duplicate on arbitrarily many later re-scans of the quiescent file. -/
theorem stabilizedEmittedExactlyOnce (window n : Nat) (s : DetState)
    (obs : FileObs) (hw : 1 ≤ window)
    (hs : ∀ prev, s.last = some prev → prev ≠ obs) :
    (detStep window s obs).2 = false ∧
    detRunCount window s (List.replicate n obs) =
      if window + 1 ≤ n then 1 else 0 := by
  have hstep : detStep window s obs = (⟨some obs, 0, false⟩, false) := by
    unfold detStep
    cases hl : s.last with
    | none => rfl
    | some prev => simp [hs prev hl]
  refine ⟨by rw [hstep], ?_⟩
  cases n with
  | zero =>
    simp only [List.replicate, detRunCount]
    rw [if_neg (by omega)]
  | succ m =>
    rw [List.replicate_succ]
    simp only [detRunCount, hstep]
    rw [detQuietRun window m 0 obs (by omega)]
    by_cases h2 : window + 1 ≤ m + 1
    · rw [if_pos (by omega : window ≤ 0 + m), if_pos h2]
      simp
    · rw [if_neg (by omega : ¬ window ≤ 0 + m), if_neg h2]
      simp

/-- Witness for C3: window 2, a file last seen with a different size, then
5 quiet ticks — exactly one emission; the change tick itself emits
nothing. -/
theorem stabilizedEmittedExactlyOnce_witness :
    (detStep 2 ⟨some ⟨50, 3⟩, 0, false⟩ ⟨100, 7⟩).2 = false ∧
    detRunCount 2 ⟨some ⟨50, 3⟩, 0, false⟩
        (List.replicate 5 ⟨100, 7⟩) =
      if 2 + 1 ≤ 5 then 1 else 0 :=
  stabilizedEmittedExactlyOnce 2 5 ⟨some ⟨50, 3⟩, 0, false⟩ ⟨100, 7⟩
    (by decide)
    (fun prev h => by
      injection h with h2
      rw [← h2]
      decide)

/-- C4 counterexample: the persist operation of the sources is a plain
`INSERT` into `dvr_recordings` (Laravel `DvrRecording::create`; the DDL has
no unique key on `(stream_name, filename)` and the documented grants are
`INSERT, SELECT` only), so persisting the same recording a second time
leaves two records with the natural key, not exactly one as the claim
states. -/
theorem persistDuplicates_counterexample :
    countByNaturalKey
        (persist
          (persist ⟨[], 1⟩
            ⟨"1761221423256.flv", "https://b.sgp1.digitaloceanspaces.com/x",
              386650000, "2025-10-23T12:12:57", "live",
              "stream_2_68fa0d1b3a78f", "1761221423256",
              "2025-10-23T12:12:57"⟩)
          ⟨"1761221423256.flv", "https://b.sgp1.digitaloceanspaces.com/x",
            386650000, "2025-10-23T12:12:57", "live",
            "stream_2_68fa0d1b3a78f", "1761221423256",
            "2025-10-23T12:12:57"⟩)
        "stream_2_68fa0d1b3a78f" "1761221423256.flv" = 2 := by
  decide

/-- C4 amended: persist is a blind insert, not an upsert — each call
appends one fresh-`id` row, so every repeated persist of the same values
increments the number of records under its `(stream_name, filename)`
natural key by one (a retried persist after a prior success yields two
records). -/
theorem persistIsBlindInsert (t : DvrTable) (v : DvrValues) :
    countByNaturalKey (persist t v) v.stream_name v.filename =
      countByNaturalKey t v.stream_name v.filename + 1 ∧
    countByNaturalKey (persist (persist t v) v) v.stream_name v.filename =
      countByNaturalKey t v.stream_name v.filename + 2 := by
  have h1 : ∀ (u : DvrTable),
      countByNaturalKey (persist u v) v.stream_name v.filename =
        countByNaturalKey u v.stream_name v.filename + 1 := by
    intro u
    simp [countByNaturalKey, persist, insertRow, List.filter_append]
  exact ⟨h1 t, by rw [h1 (persist t v), h1 t]⟩

/-- C5: the webhook POST body carries exactly the documented fields, in
order — filename, file_url, file_size, upload_time, stream_app,
stream_name, timestamp, bucket, region (the last two nullable by type) —
and the headers carry `X-Webhook-Secret` set to the configured shared
secret. -/
theorem webhookFormat (p : WebhookPayload) (secret : String) :
    (webhookBody p).map Prod.fst =
      ["filename", "file_url", "file_size", "upload_time", "stream_app",
       "stream_name", "timestamp", "bucket", "region"] ∧
    lookupHeader "X-Webhook-Secret" (webhookHeaders secret) =
      some secret := by
  refine ⟨rfl, ?_⟩
  simp [webhookHeaders, lookupHeader]

/-- Exhausting the notify budget: when every call fails, the loop makes
exactly `budget` further calls on top of those already made. -/
theorem notifyAttemptsExhaust (respond : Nat → Bool)
    (hfail : ∀ i, respond i = false) :
    ∀ (budget made : Nat),
      notifyAttempts budget made respond = (made + budget, false) := by
  intro budget
  induction budget with
  | zero => intro made; simp [notifyAttempts]
  | succ b ih =>
    intro made
    simp only [notifyAttempts, hfail made, if_neg]
    rw [ih (made + 1)]
    simp
    omega

/-- C6: a permanently failing notify endpoint (every attempt non-2xx or a
network error) makes exactly `maxAttempts` calls, after which the Recording
is marked `Done` — never `DeadLetter` — with the notify failure recorded in
the failure flag. -/
theorem notifyExhaustsToDone (maxAttempts : Nat) (respond : Nat → Bool)
    (hfail : ∀ i, respond i = false) :
    notifyLoop maxAttempts respond = (maxAttempts, false) ∧
    finishNotify (notifyLoop maxAttempts respond) =
      (RecState.Done, true) := by
  have h : notifyLoop maxAttempts respond = (maxAttempts, false) := by
    unfold notifyLoop
    rw [notifyAttemptsExhaust respond hfail maxAttempts 0]
    simp
  exact ⟨h, by rw [h]; rfl⟩

/-- Witness for C6 at budget 5 and an endpoint failing every attempt. -/
theorem notifyExhaustsToDone_witness :
    notifyLoop 5 (fun _ => false) = (5, false) ∧
    finishNotify (notifyLoop 5 (fun _ => false)) =
      (RecState.Done, true) :=
  notifyExhaustsToDone 5 (fun _ => false) (fun _ => rfl)

/-- C7: `submit` is idempotent — submitting a `local_path` whose Recording
is already tracked (in-flight, `Done`, or `DeadLetter`) leaves the
coordinator exactly as it was: no new upload is started, no metadata record
is written, and the state of the Recording is unchanged. -/
theorem submitIdempotent (c : Coord) (p : String) (st : RecState)
    (h : lookupRec p c.recs = some st) :
    submit c p = c ∧
    (submit c p).uploadsStarted = c.uploadsStarted ∧
    (submit c p).persistsDone = c.persistsDone ∧
    lookupRec p (submit c p).recs = some st := by
  have he : submit c p = c := by
    unfold submit
    rw [h]
  exact ⟨he, by rw [he], by rw [he], by rw [he]; exact h⟩

/-- Witness for C7: resubmitting a path already in flight (and one already
`Done`) changes nothing. -/
theorem submitIdempotent_witness :
    submit ⟨[("/recordings/live/a/r1.flv", .Uploading),
             ("/recordings/live/a/r0.flv", .Done)], 2, 1⟩
        "/recordings/live/a/r1.flv" =
      ⟨[("/recordings/live/a/r1.flv", .Uploading),
        ("/recordings/live/a/r0.flv", .Done)], 2, 1⟩ ∧
    (submit ⟨[("/recordings/live/a/r1.flv", .Uploading),
              ("/recordings/live/a/r0.flv", .Done)], 2, 1⟩
        "/recordings/live/a/r1.flv").uploadsStarted = 2 ∧
    (submit ⟨[("/recordings/live/a/r1.flv", .Uploading),
              ("/recordings/live/a/r0.flv", .Done)], 2, 1⟩
        "/recordings/live/a/r1.flv").persistsDone = 1 ∧
    lookupRec "/recordings/live/a/r1.flv"
        (submit ⟨[("/recordings/live/a/r1.flv", .Uploading),
                  ("/recordings/live/a/r0.flv", .Done)], 2, 1⟩
          "/recordings/live/a/r1.flv").recs = some .Uploading :=
  submitIdempotent
    ⟨[("/recordings/live/a/r1.flv", .Uploading),
      ("/recordings/live/a/r0.flv", .Done)], 2, 1⟩
    "/recordings/live/a/r1.flv" .Uploading (by decide)

/-- C8 counterexample: `bucket` and `region` are not columns of the MySQL
`dvr_recordings` table (nor of the PostgreSQL table or the MongoDB
document) — the claim that every backend persists them is false. -/
theorem bucketRegionMissing_counterexample :
    ¬ ("bucket" ∈ mysqlColumns) ∧ ¬ ("region" ∈ mysqlColumns) ∧
    ¬ ("bucket" ∈ postgresColumns) ∧ ¬ ("region" ∈ postgresColumns) ∧
    ¬ ("bucket" ∈ mongoFields) ∧ ¬ ("region" ∈ mongoFields) := by
  decide

/-- C8 amended: every backend persists the normalized core fields
(filename, file_url, file_size, upload_time, stream_app, stream_name,
timestamp, created_at), but `bucket` and `region` are persisted only by the
Laravel webhook backend, not by the direct MySQL/PostgreSQL/MongoDB
backends. -/
theorem backendFieldCoverage :
    coreFields.all (fun f =>
        mysqlColumns.contains f && postgresColumns.contains f &&
        mongoFields.contains f && laravelColumns.contains f) = true ∧
    "bucket" ∈ laravelColumns ∧ "region" ∈ laravelColumns ∧
    ¬ ("bucket" ∈ mysqlColumns) ∧ ¬ ("region" ∈ mysqlColumns) ∧
    ¬ ("bucket" ∈ mongoFields) ∧ ¬ ("region" ∈ mongoFields) := by
  decide

/-- C9: `isValidStreamKey` accepts a key exactly when the key occurs in the
comma-split `VALID_STREAM_KEYS` value or that list is empty; the list is
empty precisely when the variable is unset, so with `VALID_STREAM_KEYS`
unset every key is accepted and the `prePublish` handler never rejects a
session even with `ENABLE_AUTH` and `STREAM_KEY_VALIDATION` both
enabled. -/
theorem streamKeyValidationOpenByDefault (env : Option String)
    (key : String) :
    (isValidStreamKey env key = true ↔
      (key ∈ validKeysOf env ∨ validKeysOf env = [])) ∧
    validKeysOf none = [] ∧
    isValidStreamKey none key = true ∧
    prePublishRejects true true none key = false := by
  refine ⟨?_, rfl, rfl, rfl⟩
  simp [isValidStreamKey, List.elem_iff, List.length_eq_zero]

/-- C10: `notifyStreamStatus` never propagates an error to its caller — for
every fetch outcome (success, HTTP error status, or thrown network error)
it returns a logged message, makes exactly one fetch call (no retry), and
the `postPublish`/`donePublish` handlers still emit their lifecycle events
to web clients. -/
theorem notifyStreamStatusNeverThrows (streamKey status : String)
    (r : FetchResult) :
    (notifyStreamStatus streamKey status r).1.isOk = true ∧
    (notifyStreamStatus streamKey status r).2 = 1 ∧
    (donePublishHandler streamKey r).2 = true ∧
    (postPublishHandler streamKey r).2 = true := by
  cases r <;>
    simp [notifyStreamStatus, notifyStreamStatusBody, donePublishHandler,
      postPublishHandler, Except.isOk, Except.toBool]

end RtmpServer
